import Mathlib

/-!
Shallow embedding of `check-gits` (`src/app/src/main.rs`): a scanner that
audits a directory of git checkouts and classifies every local branch of
every repository against its upstream tracking branch.

The backend collaborators (libgit2 via the `git2` crate, and the Rust
standard library's filesystem calls) are modelled as explicit data supplied
to the functions, following the behaviour documented for those
collaborators; all control flow of the program itself is translated from
the source.
-/

/-- Commit identifier (`git2::Oid`), abstracted as a natural number. -/
abbrev Oid := Nat

/-- Rendered message of a backend error (`git2::Error` / `anyhow::Error`). -/
abbrev ErrMsg := String

/-- Per-branch terminal status from the spec's data model (section 3).  The
source assigns each status by emitting the corresponding diagnostic. -/
inductive SyncStatus
  | Synced
  | AheadOfUpstream
  | Diverged
  | NoUpstream
  | UpstreamRemoteNotSynced
  | NameUnresolvable
  deriving DecidableEq

/-- One diagnostic message of the `Printer` (src lines 29-211), one
constructor per `msg_*`/`log_*` pair actually reachable from `handle_entry`,
carrying the same data the rendered message embeds. -/
inductive Diag
  | symlink (path : String)
  | file (path : String)
  | nongit_dir (path : String) (msg : String)
  | general_entry_error (msg : String)
  | remote_not_found (path : String) (remote : String)
  | unqualified_remote (path : String) (remote : String)
  | remote_fetch_failed (path : String) (remote : String) (err : String)
  | remote_bad_name (path : String) (lossy : String)
  | remote_bad_url (path : String) (remote : String) (lossy : String)
  | branch_name_error (path : String) (err : String)
  | no_upstream (path : String) (branch : String) (err : String)
  | branch_bad_name (path : String) (lossy : String)
  | general_branch_error (path : String) (branch : String) (err : String)
  | ahead_of_upstream (path : String) (branch : String)
  | not_in_remote_ancestor (path : String) (branch : String)
  | branch_is_synced (path : String) (branch : String)
  | looking_at_entry (path : String)
  | entry_is_git_repo (path : String)
  | remote_fetch_succeeded (path : String) (remote : String)
  | looking_at_branch (path : String) (branch : String)
  | branch_upstream_name (path : String) (branch : String) (upstream : String)
  | branch_upstream_remote_name (path : String) (branch : String) (remote : String)
  | branch_remote_not_fetched (path : String) (branch : String) (remote : String)
  deriving DecidableEq

/-- What a directory entry is on disk; a symlink records what it points at
(`none` when dangling). -/
inductive FsTarget
  | dir
  | file
  deriving DecidableEq

inductive FsKind
  | dir
  | file
  | symlink (target : Option FsTarget)
  deriving DecidableEq

/-- The two metadata bits the program inspects. -/
structure FsMeta where
  is_symlink : Bool
  is_file : Bool
  deriving DecidableEq

/-- Model of Rust `Path::metadata`, as documented in std: it queries the
filesystem **traversing symbolic links**, so the returned metadata describes
the link's target (and `Metadata::is_symlink` on it is `false`), while a
dangling symlink yields an error.  Used at src line 263. -/
def path_metadata : FsKind → Except ErrMsg FsMeta
  | .dir => .ok ⟨false, false⟩
  | .file => .ok ⟨false, true⟩
  | .symlink (some .dir) => .ok ⟨false, false⟩
  | .symlink (some .file) => .ok ⟨false, true⟩
  | .symlink none => .error "No such file or directory"

/-- Model of Rust `Path::is_file` (follows symlinks, `false` on error).
Used at src line 267. -/
def path_is_file (k : FsKind) : Bool :=
  match path_metadata k with
  | .ok md => md.is_file
  | .error _ => false

/-- Model of Rust `str::starts_with` with a string pattern: true iff the
pattern is a literal prefix of the string (exact characters, case
sensitive). -/
def starts_with (s p : String) : Bool :=
  p.data.isPrefixOf s.data

/-- The qualification test at src line 313, verbatim. -/
def url_qualifies (url : String) : Bool :=
  starts_with url "https://github.com/" || starts_with url "git@github.com:"

deriving instance DecidableEq for Except

/-- Backend data of one remote (`git2::Remote`): `url` is `some` iff the raw
url bytes are valid utf8 (`Remote::url`), `url_lossy` renders
`Remote::url_bytes`, and `fetch` is the outcome of `Remote::fetch` under the
configured credential callback. -/
structure RemoteInfo where
  url : Option String
  url_lossy : String
  fetch : Except ErrMsg Unit
  deriving DecidableEq

/-- Result of `Branch::name` together with `Branch::name_bytes`: `valid s`
models `Ok(Some s)`; `invalid lossy` models `Ok(None)` with the raw bytes
lossily decoded (in git2 `name` is derived from `name_bytes`, so `Ok` for
one implies `Ok` for the other). -/
inductive BName
  | valid (s : String)
  | invalid (lossy : String)
  deriving DecidableEq

/-- The branch-name conversion at src lines 360-366: a valid utf8 name is
used as is, otherwise the raw bytes are lossily decoded. -/
def BName.render : BName → String
  | .valid s => s
  | .invalid lossy => lossy

/-- Backend data of an upstream (remote-tracking) branch: its name and the
commit id its reference resolves to (`branch.get().resolve()` followed by
`Reference::target`, which is `some` on a direct reference). -/
structure UpstreamData where
  name_result : Except ErrMsg BName
  resolve : Except ErrMsg Oid

/-- Backend data of one local branch (`git2::Branch`). -/
structure BranchData where
  name_result : Except ErrMsg BName
  upstream : Except ErrMsg UpstreamData
  resolve : Except ErrMsg Oid

/-- Backend data of an opened repository (`git2::Repository`).  `remotes`
yields per remote the utf8 name (when valid) and a lossy rendering of the
raw bytes, mirroring `string_array.iter()` zipped with `iter_bytes()`.
`walk` is the revwalk primitive of the backend (spec section 6,
`walkAncestors`): the topologically sorted ancestor sequence seeded at a
commit, each item possibly an error as `Revwalk` yields `Result<Oid>`. -/
structure RepoData where
  remotes : Except ErrMsg (List (Option String × String))
  find_remote : String → Except ErrMsg RemoteInfo
  branches : Except ErrMsg (List (Except ErrMsg BranchData))
  branch_remote_name : String → Except ErrMsg (Option String)
  walk : Oid → List (Except ErrMsg Oid)

/-- The commit ids a revwalk actually yields (its `Ok` items). -/
def ok_oids : List (Except ErrMsg Oid) → List Oid
  | [] => []
  | .ok o :: rest => o :: ok_oids rest
  | .error _ :: rest => ok_oids rest

/-- `c` is an ancestor of `t`: the walk seeded at `t` yields `c` (a commit
is its own ancestor, the walk yielding its seed). -/
def is_ancestor (repo : RepoData) (c t : Oid) : Prop :=
  c ∈ ok_oids (repo.walk t)

instance (repo : RepoData) (c t : Oid) : Decidable (is_ancestor repo c t) :=
  inferInstanceAs (Decidable (c ∈ ok_oids (repo.walk t)))

/-- The `revwalk.any(..)` loops at src lines 447-455 and 461-469: scan the
walk output in order for `target`; an `Err` item is logged as a branch-level
diagnostic and treated as "not the target here", the scan continuing; the
scan short-circuits at the first match.  Returns the diagnostics pushed and
the boolean result. -/
def walk_any (path branch : String) (target : Oid) :
    List (Except ErrMsg Oid) → List Diag × Bool
  | [] => ([], false)
  | .ok o :: rest =>
    if o == target then ([], true)
    else walk_any path branch target rest
  | .error e :: rest =>
    let r := walk_any path branch target rest
    (.general_branch_error path branch e :: r.1, r.2)

/-- The remote-qualification loop at src lines 287-318: for each listed
remote, skip (with a diagnostic) names that are not valid utf8, remotes that
cannot be looked up, and remotes without a valid-utf8 url; keep the remote
iff its url passes `url_qualifies`, diagnosing unqualified ones.  Returns
the diagnostics and the qualifying remotes (with their names) in order. -/
def qualify_remotes (path : String) (repo : RepoData) :
    List (Option String × String) → List Diag × List (String × RemoteInfo)
  | [] => ([], [])
  | (nameOpt, lossy) :: rest =>
    let r := qualify_remotes path repo rest
    match nameOpt with
    | none => (.remote_bad_name path lossy :: r.1, r.2)
    | some name =>
      match repo.find_remote name with
      | .error _ => (.remote_not_found path name :: r.1, r.2)
      | .ok remote =>
        match remote.url with
        | none => (.remote_bad_url path name remote.url_lossy :: r.1, r.2)
        | some url =>
          if url_qualifies url then (r.1, (name, remote) :: r.2)
          else (.unqualified_remote path name :: r.1, r.2)

/-- The fetch loop at src lines 320-351 (`filter_map` over the qualifying
remotes): every qualifying remote is fetched in order; a success is kept in
the synced set (and logged when verbose), a failure is diagnosed with the
remote's name and the error text and dropped. -/
def fetch_remotes (verbose : Bool) (path : String) :
    List (String × RemoteInfo) → List Diag × List (String × RemoteInfo)
  | [] => ([], [])
  | (name, remote) :: rest =>
    let r := fetch_remotes verbose path rest
    match remote.fetch with
    | .ok _ =>
      ((if verbose then [.remote_fetch_succeeded path name] else []) ++ r.1,
       (name, remote) :: r.2)
    | .error e => (.remote_fetch_failed path name e :: r.1, r.2)

/-- Result of auditing one local branch: the diagnostics pushed, the status
the spec's state machine assigns on that path (`none` where the spec says
"diagnosed generically, not a named status"), keyed by the branch name when
one was obtained, and the seeds of the revwalks performed. -/
structure AuditResult where
  diags : List Diag
  status : Option (Option String × SyncStatus)
  walks : List Oid
  deriving DecidableEq

/-- The per-branch body of the loop at src lines 357-480, the spec's
BranchAuditor state machine (section 4.4): resolve the branch name, the
upstream, the upstream's owning remote; check that remote is in the synced
set; resolve both commit ids; classify by the two ancestry walks, the
second performed only when the first finds nothing. -/
def audit_branch (verbose : Bool) (path : String) (repo : RepoData)
    (synced : List (String × RemoteInfo)) (b : BranchData) : AuditResult :=
  match b.name_result with
  | .error e => ⟨[.branch_name_error path e], some (none, .NameUnresolvable), []⟩
  | .ok bn =>
    let branchName := bn.render
    let d0 := if verbose then [Diag.looking_at_branch path branchName] else []
    match b.upstream with
    | .error e =>
      ⟨d0 ++ [.no_upstream path branchName e], some (some branchName, .NoUpstream), []⟩
    | .ok up =>
      match up.name_result with
      | .error e =>
        ⟨d0 ++ [.branch_name_error path e], some (some branchName, .NameUnresolvable), []⟩
      | .ok (.invalid lossy) =>
        ⟨d0 ++ [.branch_bad_name path lossy], some (some branchName, .NameUnresolvable), []⟩
      | .ok (.valid upName) =>
        let d1 := if verbose then [Diag.branch_upstream_name path branchName upName] else []
        let fq := "refs/remotes/" ++ upName
        match repo.branch_remote_name fq with
        | .error e =>
          ⟨d0 ++ d1 ++ [.general_branch_error path fq e],
           some (some branchName, .NameUnresolvable), []⟩
        | .ok none =>
          ⟨d0 ++ d1 ++ [.remote_bad_name path ""],
           some (some branchName, .NameUnresolvable), []⟩
        | .ok (some remoteName) =>
          let d2 :=
            if verbose then [Diag.branch_upstream_remote_name path branchName remoteName]
            else []
          if synced.any (fun r => r.1 == remoteName) then
            match b.resolve with
            | .error e =>
              ⟨d0 ++ d1 ++ d2 ++ [.general_branch_error path branchName e], none, []⟩
            | .ok branchOid =>
              match up.resolve with
              | .error e =>
                ⟨d0 ++ d1 ++ d2 ++ [.general_branch_error path branchName e], none, []⟩
              | .ok upstreamOid =>
                let w1 := walk_any path branchName branchOid (repo.walk upstreamOid)
                if w1.2 then
                  ⟨d0 ++ d1 ++ d2 ++ w1.1 ++ [.branch_is_synced path branchName],
                   some (some branchName, .Synced), [upstreamOid]⟩
                else
                  let w2 := walk_any path branchName upstreamOid (repo.walk branchOid)
                  if w2.2 then
                    ⟨d0 ++ d1 ++ d2 ++ w1.1 ++ w2.1 ++ [.ahead_of_upstream path branchName],
                     some (some branchName, .AheadOfUpstream), [upstreamOid, branchOid]⟩
                  else
                    ⟨d0 ++ d1 ++ d2 ++ w1.1 ++ w2.1 ++
                       [.not_in_remote_ancestor path branchName],
                     some (some branchName, .Diverged), [upstreamOid, branchOid]⟩
          else
            ⟨d0 ++ d1 ++ d2 ++ [.branch_remote_not_fetched path branchName remoteName],
             some (some branchName, .UpstreamRemoteNotSynced), []⟩

/-- The branch loop at src lines 356-480.  Each item of `branches` is a
`Result`; the `?` at src line 358 propagates an `Err` item, aborting the
remaining branches of the entry. -/
def audit_branches (verbose : Bool) (path : String) (repo : RepoData)
    (synced : List (String × RemoteInfo)) :
    List (Except ErrMsg BranchData) →
      List Diag × List (Option String × SyncStatus) × Except ErrMsg Unit
  | [] => ([], [], .ok ())
  | .error e :: _ => ([], [], .error e)
  | .ok b :: rest =>
    let a := audit_branch verbose path repo synced b
    let r := audit_branches verbose path repo synced rest
    (a.diags ++ r.1, a.status.toList ++ r.2.1, r.2.2)

/-- A directory entry as the backend presents it: its path, what it is on
disk, and what `Repository::open` on its path yields. -/
structure EntryData where
  path : String
  fsKind : FsKind
  openRepo : Except ErrMsg RepoData

/-- Result of the `handle_entry` closure (src lines 259-483): diagnostics
pushed to the printer, branch outcomes, and the closure's `Result` (an
`Err` is an unexpected backend error that aborted the entry). -/
structure EntryResult where
  diags : List Diag
  outcomes : List (Option String × SyncStatus)
  result : Except ErrMsg Unit
  deriving DecidableEq

/-- The `handle_entry` closure, src lines 259-483: metadata check (symlink,
plain file), `Repository::open`, remote qualification, fetch of qualifying
remotes, then the branch audit loop. -/
def handle_entry (verbose : Bool) (entry : EntryData) : EntryResult :=
  match path_metadata entry.fsKind with
  | .error e => ⟨[], [], .error e⟩
  | .ok md =>
    if md.is_symlink then ⟨[.symlink entry.path], [], .ok ()⟩
    else if path_is_file entry.fsKind then ⟨[.file entry.path], [], .ok ()⟩
    else
      match entry.openRepo with
      | .error e => ⟨[.nongit_dir entry.path e], [], .ok ()⟩
      | .ok repo =>
        let d0 := if verbose then [Diag.entry_is_git_repo entry.path] else []
        match repo.remotes with
        | .error e => ⟨d0, [], .error e⟩
        | .ok remoteList =>
          let q := qualify_remotes entry.path repo remoteList
          let f := fetch_remotes verbose entry.path q.2
          match repo.branches with
          | .error e => ⟨d0 ++ q.1 ++ f.1, [], .error e⟩
          | .ok branchList =>
            let a := audit_branches verbose entry.path repo (f.2) branchList
            ⟨d0 ++ q.1 ++ f.1 ++ a.1, a.2.1, a.2.2⟩

/-- An (entry, branch, status) outcome of the scan. -/
abbrev Outcome := String × Option String × SyncStatus

/-- One iteration of the main loop (src lines 240-488): a fresh `Printer`; an
`Err` directory item is logged and skipped; otherwise the entry is logged
(verbose), handled, and a failure of `handle_entry` is logged as one generic
entry error; the printer flushes when it drops at the end of the iteration.
Returns the flushed messages and the outcomes of the entry. -/
def scan_step (verbose : Bool) : Except ErrMsg EntryData → List Diag × List Outcome
  | .error e => ([Diag.general_entry_error e], [])
  | .ok entry =>
    let header := if verbose then [Diag.looking_at_entry entry.path] else []
    let r := handle_entry verbose entry
    let tail :=
      match r.result with
      | .ok _ => []
      | .error e => [Diag.general_entry_error e]
    (header ++ r.diags ++ tail, r.outcomes.map (fun o => (entry.path, o.1, o.2)))

/-- The main loop over the directory items (src lines 238-488), emitting
each iteration's flushed messages in order. -/
def scan_entries (verbose : Bool) :
    List (Except ErrMsg EntryData) → List Diag × List Outcome
  | [] => ([], [])
  | item :: rest =>
    let s := scan_step verbose item
    let r := scan_entries verbose rest
    (s.1 ++ r.1, s.2 ++ r.2)

/-- What `main` (src lines 219-490) consumes: the verbose flag, the result
of `fs::metadata` on the resolved ssh private-key path, and the result of
`fs::read_dir` on the repositories directory. -/
structure Config where
  verbose : Bool
  ssh_key_metadata : Except ErrMsg FsMeta
  read_dir : Except ErrMsg (List (Except ErrMsg EntryData))

/-- Result of the whole run: everything printed through the `Printer`, the
scan outcomes, and `main`'s `Result` (an `Err` makes the process exit
non-zero). -/
structure RunResult where
  output : List Diag
  outcomes : List Outcome
  result : Except ErrMsg Unit
  deriving DecidableEq

/-- `main`, src lines 219-490: pre-flight checks (key metadata readable and
a regular file, directory readable), then the scan; the loop itself never
returns an error. -/
def main_run (cfg : Config) : RunResult :=
  match cfg.ssh_key_metadata with
  | .error e => ⟨[], [], .error ("Failed to get metadata for ssh private key: " ++ e)⟩
  | .ok md =>
    if md.is_file then
      match cfg.read_dir with
      | .error e => ⟨[], [], .error ("Failed to read projects directory: " ++ e)⟩
      | .ok items =>
        let s := scan_entries cfg.verbose items
        ⟨s.1, s.2, .ok ()⟩
    else ⟨[], [], .error "The ssh private key path is not a file"⟩

/-! ## Helper lemmas -/

/-- `str::starts_with` holds exactly when the string is the pattern followed
by some (possibly empty) remainder. -/
theorem starts_with_iff (s p : String) :
    starts_with s p = true ↔ ∃ rest : String, s = p ++ rest := by
  unfold starts_with
  rw [List.isPrefixOf_iff_prefix]
  constructor
  · rintro ⟨t, ht⟩
    refine ⟨⟨t⟩, String.ext ?_⟩
    rw [String.data_append]
    exact ht.symm
  · rintro ⟨rest, rfl⟩
    exact ⟨rest.data, (String.data_append p rest).symm⟩

/-- The boolean a logging `revwalk.any` loop computes is membership of the
sought commit among the walk's `Ok` items. -/
theorem walk_any_snd (path branch : String) (target : Oid)
    (l : List (Except ErrMsg Oid)) :
    (walk_any path branch target l).2 = true ↔ target ∈ ok_oids l := by
  induction l with
  | nil => simp [walk_any, ok_oids]
  | cons hd rest ih =>
    cases hd with
    | ok o =>
      by_cases h : o = target
      · subst h
        simp [walk_any, ok_oids]
      · have hb : (o == target) = false := by simp [h]
        simp only [walk_any, hb, Bool.false_eq_true, if_false, ok_oids, ih,
          List.mem_cons]
        constructor
        · exact Or.inr
        · rintro (rfl | hm)
          · exact absurd rfl h
          · exact hm
    | error e =>
      simp only [walk_any, ok_oids]
      exact ih

/-- The diagnostics of the scan are the concatenation of the per-iteration
batches, in iteration order. -/
theorem scan_entries_fst (verbose : Bool)
    (items : List (Except ErrMsg EntryData)) :
    (scan_entries verbose items).1 =
      items.flatMap (fun it => (scan_step verbose it).1) := by
  induction items with
  | nil => rfl
  | cons it rest ih => simp [scan_entries, ih]

/-- The outcomes of the scan are the concatenation of the per-iteration
outcomes, in iteration order. -/
theorem scan_entries_snd (verbose : Bool)
    (items : List (Except ErrMsg EntryData)) :
    (scan_entries verbose items).2 =
      items.flatMap (fun it => (scan_step verbose it).2) := by
  induction items with
  | nil => rfl
  | cons it rest ih => simp [scan_entries, ih]

/-! ## C4: remote qualification -/

/-- C4: a remote qualifies iff its URL begins with the literal prefix
`https://github.com/` or `git@github.com:` (case-sensitive, no
normalization); in particular the two github forms qualify and the gitlab
URL does not. -/
theorem c4_remote_qualification :
    (∀ url : String, url_qualifies url = true ↔
       (∃ rest : String, url = "https://github.com/" ++ rest) ∨
       (∃ rest : String, url = "git@github.com:" ++ rest))
    ∧ url_qualifies "https://github.com/org/repo.git" = true
    ∧ url_qualifies "git@github.com:org/repo.git" = true
    ∧ url_qualifies "https://gitlab.com/org/repo.git" = false := by
  refine ⟨?_, by decide, by decide, by decide⟩
  intro url
  unfold url_qualifies
  rw [Bool.or_eq_true, starts_with_iff, starts_with_iff]

/-! ## C7: per-entry diagnostic batching -/

/-- C7: everything the scan prints is exactly the concatenation, in entry
order, of the per-entry batches: each directory item contributes the block
of diagnostics collected while it was processed (flushed when its printer
drops, also when processing ended early in an error), once, contiguously,
before the next entry's block. -/
theorem c7_diagnostics_batched (verbose : Bool)
    (items : List (Except ErrMsg EntryData)) :
    (scan_entries verbose items).1 =
      items.flatMap (fun it => (scan_step verbose it).1) :=
  scan_entries_fst verbose items

/-! ## C9: idempotence up to entry order -/

/-- C9: the scan is a pure function of the backend data, so two runs over
the same unchanged repositories produce the same (entry, branch, status)
outcomes; reordering the directory entries permutes the outcome list and
nothing else. -/
theorem c9_scan_deterministic (verbose : Bool)
    (es₁ es₂ : List (Except ErrMsg EntryData)) (h : es₁.Perm es₂) :
    ((scan_entries verbose es₁).2).Perm ((scan_entries verbose es₂).2) := by
  rw [scan_entries_snd, scan_entries_snd]
  exact h.flatMap_right _

def c9_entry : EntryData := ⟨"/repos/f", .file, .error "could not open"⟩

theorem c9_scan_deterministic_witness :
    ((scan_entries false [.error "io error", .ok c9_entry]).2).Perm
      ((scan_entries false [.ok c9_entry, .error "io error"]).2) :=
  c9_scan_deterministic false _ _
    (List.Perm.swap (Except.ok c9_entry) (Except.error "io error")
      ([] : List (Except ErrMsg EntryData)))

/-! ## C8: pre-flight validation -/

/-- C8: if the ssh key metadata cannot be read, or the key path is not a
regular file, or the repositories directory cannot be read, the run aborts
with an error result (non-zero exit) and produces no per-entry output and
no outcomes. -/
theorem c8_preflight_aborts (cfg : Config)
    (h : (∃ e, cfg.ssh_key_metadata = .error e) ∨
         (∃ md, cfg.ssh_key_metadata = .ok md ∧ md.is_file = false) ∨
         (∃ e, cfg.read_dir = .error e)) :
    (main_run cfg).output = [] ∧ (main_run cfg).outcomes = [] ∧
      ∃ e, (main_run cfg).result = .error e := by
  rcases h with ⟨e, he⟩ | ⟨md, hmd, hf⟩ | ⟨e, he⟩
  · simp [main_run, he]
  · simp [main_run, hmd, hf]
  · cases hk : cfg.ssh_key_metadata with
    | error e' => simp [main_run, hk]
    | ok md =>
      cases hf : md.is_file with
      | false => simp [main_run, hk, hf]
      | true => simp [main_run, hk, hf, he]

theorem c8_preflight_aborts_witness :
    (main_run ⟨false, .error "no such file", .ok []⟩).output = [] ∧
    (main_run ⟨false, .error "no such file", .ok []⟩).outcomes = [] ∧
    ∃ e, (main_run ⟨false, .error "no such file", .ok []⟩).result = .error e :=
  c8_preflight_aborts ⟨false, .error "no such file", .ok []⟩
    (Or.inl ⟨"no such file", rfl⟩)

/-! ## C3: symlink handling -/

/-- C3 (divergence witness): the metadata call at src line 263 is
`Path::metadata`, which follows symlinks, so for a symlink to a directory it
reports neither a symlink nor a file, the symlink diagnostic is not emitted,
and the symlinked path reaches `Repository::open` (whose result is what the
entry's handling reports). -/
theorem c3_symlink_followed :
    path_metadata (.symlink (some .dir)) = .ok ⟨false, false⟩
    ∧ handle_entry false ⟨"/repos/link", .symlink (some .dir),
        .error "could not find repository"⟩ =
      ⟨[Diag.nongit_dir "/repos/link" "could not find repository"], [], .ok ()⟩
    ∧ Diag.symlink "/repos/link" ∉
        (handle_entry false ⟨"/repos/link", .symlink (some .dir),
          .error "could not find repository"⟩).diags := by
  refine ⟨rfl, by decide, by decide⟩

/-! ## C6: no upstream -/

/-- C6: a branch whose name resolves but whose upstream lookup fails is
assigned NoUpstream, its processing stops with that single diagnostic, and
no ancestry walk is ever performed for it. -/
theorem c6_no_upstream (verbose : Bool) (path : String) (repo : RepoData)
    (synced : List (String × RemoteInfo)) (b : BranchData) (bn : BName)
    (e : ErrMsg) (h1 : b.name_result = .ok bn) (h2 : b.upstream = .error e) :
    audit_branch verbose path repo synced b =
      ⟨(if verbose then [Diag.looking_at_branch path bn.render] else []) ++
         [Diag.no_upstream path bn.render e],
       some (some bn.render, .NoUpstream), []⟩ := by
  simp [audit_branch, h1, h2]

def c6_repo : RepoData :=
  ⟨.ok [], fun _ => .error "none", .ok [], fun _ => .error "none", fun _ => []⟩

def c6_branch : BranchData :=
  ⟨.ok (.valid "dev"), .error "no upstream configured", .ok 3⟩

theorem c6_no_upstream_witness :
    audit_branch false "/repos/r" c6_repo [] c6_branch =
      ⟨[Diag.no_upstream "/repos/r" "dev" "no upstream configured"],
       some (some "dev", SyncStatus.NoUpstream), []⟩ :=
  (c6_no_upstream false "/repos/r" c6_repo [] c6_branch (.valid "dev")
      "no upstream configured" rfl rfl).trans (by decide)

/-! ## C1: ancestry classification -/

/-- C1: a branch that reaches ancestry classification (name resolved,
upstream resolved with a valid name, upstream's remote in the synced set,
both commit ids resolved) is Synced when the local commit is among the
ancestors of the upstream commit, else AheadOfUpstream when the upstream
commit is among the ancestors of the local commit, else Diverged; the
reverse walk (seeded at the local commit) is performed only when the first
check fails. -/
theorem c1_ancestry_classification (verbose : Bool) (path : String)
    (repo : RepoData) (synced : List (String × RemoteInfo)) (b : BranchData)
    (bn : BName) (up : UpstreamData) (upName remoteName : String) (lo uo : Oid)
    (h1 : b.name_result = .ok bn) (h2 : b.upstream = .ok up)
    (h3 : up.name_result = .ok (.valid upName))
    (h4 : repo.branch_remote_name ("refs/remotes/" ++ upName) = .ok (some remoteName))
    (h5 : synced.any (fun r => r.1 == remoteName) = true)
    (h6 : b.resolve = .ok lo) (h7 : up.resolve = .ok uo) :
    (audit_branch verbose path repo synced b).status =
      some (some bn.render,
        if is_ancestor repo lo uo then SyncStatus.Synced
        else if is_ancestor repo uo lo then SyncStatus.AheadOfUpstream
        else SyncStatus.Diverged)
    ∧ (audit_branch verbose path repo synced b).walks =
        (if is_ancestor repo lo uo then [uo] else [uo, lo]) := by
  by_cases hA : is_ancestor repo lo uo
  · have hw : (walk_any path bn.render lo (repo.walk uo)).2 = true :=
      (walk_any_snd path bn.render lo (repo.walk uo)).mpr hA
    simp [audit_branch, h1, h2, h3, h4, h5, h6, h7, hw, hA]
  · have hw : (walk_any path bn.render lo (repo.walk uo)).2 = false := by
      rw [Bool.eq_false_iff]
      intro hx
      exact hA ((walk_any_snd path bn.render lo (repo.walk uo)).mp hx)
    by_cases hB : is_ancestor repo uo lo
    · have hw2 : (walk_any path bn.render uo (repo.walk lo)).2 = true :=
        (walk_any_snd path bn.render uo (repo.walk lo)).mpr hB
      simp [audit_branch, h1, h2, h3, h4, h5, h6, h7, hw, hw2, hA, hB]
    · have hw2 : (walk_any path bn.render uo (repo.walk lo)).2 = false := by
        rw [Bool.eq_false_iff]
        intro hx
        exact hB ((walk_any_snd path bn.render uo (repo.walk lo)).mp hx)
      simp [audit_branch, h1, h2, h3, h4, h5, h6, h7, hw, hw2, hA, hB]

def c1_remote : RemoteInfo :=
  ⟨some "https://github.com/o/r.git", "https://github.com/o/r.git", .ok ()⟩

def c1_up : UpstreamData := ⟨.ok (.valid "origin/main"), .ok 10⟩

def c1_branch : BranchData := ⟨.ok (.valid "main"), .ok c1_up, .ok 5⟩

def c1_repo : RepoData :=
  ⟨.ok [(some "origin", "origin")], fun _ => .ok c1_remote, .ok [.ok c1_branch],
   fun s => if s == "refs/remotes/origin/main" then .ok (some "origin")
            else .error "not found",
   fun t => if t == 10 then [.ok 10, .ok 5] else if t == 5 then [.ok 5] else []⟩

theorem c1_ancestry_classification_witness :
    (audit_branch false "/repos/r" c1_repo [("origin", c1_remote)] c1_branch).status =
      some (some "main", SyncStatus.Synced)
    ∧ (audit_branch false "/repos/r" c1_repo [("origin", c1_remote)] c1_branch).walks =
        [10] := by
  have h := c1_ancestry_classification false "/repos/r" c1_repo
    [("origin", c1_remote)] c1_branch (.valid "main") c1_up "origin/main" "origin"
    5 10 rfl rfl rfl (by decide) rfl rfl rfl
  exact ⟨h.1.trans (by decide), h.2.trans (by decide)⟩

/-! ## C2: per-entry error isolation -/

/-- C2: an unexpected backend error from `handle_entry` is caught by the
loop, produces exactly one generic diagnostic appended after the entry's
other diagnostics, and the scan continues with the remaining entries; an
unreadable directory item likewise yields one generic diagnostic and the
scan continues; and whenever the pre-flight checks pass, `main` returns ok
regardless of what happened inside entries, so only pre-flight errors can
reach the process exit code. -/
theorem c2_entry_error_isolation :
    (∀ (verbose : Bool) (entry : EntryData) (rest : List (Except ErrMsg EntryData))
       (e : ErrMsg),
       (handle_entry verbose entry).result = .error e →
       (scan_entries verbose (.ok entry :: rest)).1 =
         (if verbose then [Diag.looking_at_entry entry.path] else []) ++
           (handle_entry verbose entry).diags ++ [Diag.general_entry_error e] ++
           (scan_entries verbose rest).1)
    ∧ (∀ (verbose : Bool) (e : ErrMsg) (rest : List (Except ErrMsg EntryData)),
       (scan_entries verbose (.error e :: rest)).1 =
         Diag.general_entry_error e :: (scan_entries verbose rest).1)
    ∧ (∀ (cfg : Config) (md : FsMeta) (items : List (Except ErrMsg EntryData)),
       cfg.ssh_key_metadata = .ok md → md.is_file = true → cfg.read_dir = .ok items →
       (main_run cfg).result = .ok ()) := by
  refine ⟨?_, ?_, ?_⟩
  · intro verbose entry rest e h
    simp [scan_entries, scan_step, h]
  · intro verbose e rest
    simp [scan_entries, scan_step]
  · intro cfg md items h1 h2 h3
    simp [main_run, h1, h2, h3]

def c2_entry : EntryData := ⟨"/repos/broken", .symlink none, .error "open failed"⟩

theorem c2_entry_error_isolation_witness :
    (scan_entries false [.ok c2_entry]).1 =
      (if false then [Diag.looking_at_entry c2_entry.path] else []) ++
        (handle_entry false c2_entry).diags ++
        [Diag.general_entry_error "No such file or directory"] ++
        (scan_entries false []).1 :=
  c2_entry_error_isolation.1 false c2_entry [] "No such file or directory" rfl

/-! ## C5: fetch failure handling -/

/-- Every member of the synced set is a qualifying remote whose fetch
succeeded. -/
theorem fetch_remotes_mem_ok (verbose : Bool) (path : String)
    (q : List (String × RemoteInfo)) :
    ∀ x ∈ (fetch_remotes verbose path q).2, x ∈ q ∧ x.2.fetch = .ok () := by
  induction q with
  | nil => simp [fetch_remotes]
  | cons hd rest ih =>
    obtain ⟨name, remote⟩ := hd
    intro x hx
    cases hr : remote.fetch with
    | ok u =>
      cases u
      simp only [fetch_remotes, hr] at hx
      rcases List.mem_cons.mp hx with rfl | hm
      · exact ⟨List.mem_cons_self _ _, hr⟩
      · obtain ⟨hq, hf⟩ := ih x hm
        exact ⟨List.mem_cons_of_mem _ hq, hf⟩
    | error e =>
      simp only [fetch_remotes, hr] at hx
      obtain ⟨hq, hf⟩ := ih x hx
      exact ⟨List.mem_cons_of_mem _ hq, hf⟩

/-- Every qualifying remote whose fetch succeeds lands in the synced set:
remotes after a failed one are still attempted. -/
theorem fetch_remotes_ok_mem (verbose : Bool) (path : String)
    (q : List (String × RemoteInfo)) :
    ∀ x ∈ q, x.2.fetch = .ok () → x ∈ (fetch_remotes verbose path q).2 := by
  induction q with
  | nil => simp
  | cons hd rest ih =>
    obtain ⟨name, remote⟩ := hd
    intro x hx hok
    rcases List.mem_cons.mp hx with rfl | hm
    · have hok' : remote.fetch = .ok () := hok
      simp only [fetch_remotes, hok']
      exact List.mem_cons_self _ _
    · cases hr : remote.fetch with
      | ok u =>
        simp only [fetch_remotes, hr]
        exact List.mem_cons_of_mem _ (ih x hm hok)
      | error e =>
        simp only [fetch_remotes, hr]
        exact ih x hm hok

/-- A qualifying remote whose fetch fails is diagnosed with its name and the
error text. -/
theorem fetch_remotes_fail_diag (verbose : Bool) (path : String)
    (q : List (String × RemoteInfo)) (r : String) (i : RemoteInfo) (err : ErrMsg)
    (hmem : (r, i) ∈ q) (hfail : i.fetch = .error err) :
    Diag.remote_fetch_failed path r err ∈ (fetch_remotes verbose path q).1 := by
  induction q with
  | nil => cases hmem
  | cons hd rest ih =>
    obtain ⟨name, remote⟩ := hd
    rcases List.mem_cons.mp hmem with heq | hm
    · injection heq with he1 he2
      subst he1
      subst he2
      simp only [fetch_remotes, hfail]
      exact List.mem_cons_self _ _
    · cases hr : remote.fetch with
      | ok u =>
        simp only [fetch_remotes, hr]
        exact List.mem_append_right _ (ih hm)
      | error e =>
        simp only [fetch_remotes, hr]
        exact List.mem_cons_of_mem _ (ih hm)

/-- When the remote names are pairwise distinct, two qualifying entries with
the same name are the same entry. -/
theorem mem_unique_of_nodup_fst (l : List (String × RemoteInfo)) (r : String)
    (a b : RemoteInfo) (hnd : (l.map Prod.fst).Nodup)
    (ha : (r, a) ∈ l) (hb : (r, b) ∈ l) : a = b := by
  induction l with
  | nil => cases ha
  | cons hd rest ih =>
    rw [List.map_cons, List.nodup_cons] at hnd
    rcases List.mem_cons.mp ha with heqa | hma <;>
      rcases List.mem_cons.mp hb with heqb | hmb
    · have h := heqa.trans heqb.symm
      injection h with h1 h2
    · exfalso
      apply hnd.1
      rw [← heqa]
      exact List.mem_map.mpr ⟨(r, b), hmb, rfl⟩
    · exfalso
      apply hnd.1
      rw [← heqb]
      exact List.mem_map.mpr ⟨(r, a), hma, rfl⟩
    · exact ih hnd.2 hma hmb

/-- A name absent from the synced set makes the `any` lookup false. -/
theorem any_fst_eq_false_of_not_mem (l : List (String × RemoteInfo)) (r : String)
    (h : r ∉ l.map Prod.fst) : l.any (fun x => x.1 == r) = false := by
  rw [Bool.eq_false_iff]
  intro hx
  obtain ⟨x, hxl, hxx⟩ := List.any_eq_true.mp hx
  exact h (List.mem_map.mpr ⟨x, hxl, beq_iff_eq.mp hxx⟩)

/-- A branch whose upstream's remote is not in the synced set is assigned
UpstreamRemoteNotSynced, with no ancestry walk. -/
theorem audit_branch_remote_not_synced (verbose : Bool) (path : String)
    (repo : RepoData) (synced : List (String × RemoteInfo)) (b : BranchData)
    (bn : BName) (up : UpstreamData) (upName remoteName : String)
    (h1 : b.name_result = .ok bn) (h2 : b.upstream = .ok up)
    (h3 : up.name_result = .ok (.valid upName))
    (h4 : repo.branch_remote_name ("refs/remotes/" ++ upName) = .ok (some remoteName))
    (h5 : synced.any (fun r => r.1 == remoteName) = false) :
    (audit_branch verbose path repo synced b).status =
      some (some bn.render, SyncStatus.UpstreamRemoteNotSynced)
    ∧ (audit_branch verbose path repo synced b).walks = [] := by
  simp [audit_branch, h1, h2, h3, h4, h5]

/-- C5: when a qualifying remote's fetch fails, the failure is diagnosed
with the remote's name and error text, the other qualifying remotes are
still attempted (every successful one reaches the synced set), the failed
remote is excluded from the synced set, and every branch whose upstream
tracks it is assigned UpstreamRemoteNotSynced with no ancestry walk. -/
theorem c5_fetch_failure_handling (verbose : Bool) (path : String)
    (qualifying : List (String × RemoteInfo)) (r : String) (info : RemoteInfo)
    (err : ErrMsg) (hmem : (r, info) ∈ qualifying)
    (hfail : info.fetch = .error err)
    (hnd : (qualifying.map Prod.fst).Nodup) :
    Diag.remote_fetch_failed path r err ∈ (fetch_remotes verbose path qualifying).1
    ∧ (∀ r' i', (r', i') ∈ qualifying → i'.fetch = .ok () →
         (r', i') ∈ (fetch_remotes verbose path qualifying).2)
    ∧ r ∉ ((fetch_remotes verbose path qualifying).2).map Prod.fst
    ∧ (∀ (repo : RepoData) (b : BranchData) (bn : BName) (up : UpstreamData)
         (upName : String),
         b.name_result = .ok bn → b.upstream = .ok up →
         up.name_result = .ok (.valid upName) →
         repo.branch_remote_name ("refs/remotes/" ++ upName) = .ok (some r) →
         (audit_branch verbose path repo
             (fetch_remotes verbose path qualifying).2 b).status =
           some (some bn.render, SyncStatus.UpstreamRemoteNotSynced)
         ∧ (audit_branch verbose path repo
             (fetch_remotes verbose path qualifying).2 b).walks = []) := by
  have hnotin : r ∉ ((fetch_remotes verbose path qualifying).2).map Prod.fst := by
    intro hr
    obtain ⟨x, hxs, hxf⟩ := List.mem_map.mp hr
    obtain ⟨hq, hok⟩ := fetch_remotes_mem_ok verbose path qualifying x hxs
    obtain ⟨x1, x2⟩ := x
    dsimp at hxf
    subst hxf
    have hx2 := mem_unique_of_nodup_fst qualifying x1 info x2 hnd hmem hq
    rw [← hx2, hfail] at hok
    cases hok
  refine ⟨fetch_remotes_fail_diag verbose path qualifying r info err hmem hfail,
    ?_, hnotin, ?_⟩
  · intro r' i' hq hok
    exact fetch_remotes_ok_mem verbose path qualifying (r', i') hq hok
  · intro repo b bn up upName hb1 hb2 hb3 hb4
    exact audit_branch_remote_not_synced verbose path repo
      (fetch_remotes verbose path qualifying).2 b bn up upName r hb1 hb2 hb3 hb4
      (any_fst_eq_false_of_not_mem _ r hnotin)

def c5_rem_bad : RemoteInfo :=
  ⟨some "git@github.com:o/r.git", "git@github.com:o/r.git", .error "auth failed"⟩

def c5_rem_good : RemoteInfo :=
  ⟨some "https://github.com/o/b.git", "https://github.com/o/b.git", .ok ()⟩

def c5_qualifying : List (String × RemoteInfo) :=
  [("origin", c5_rem_bad), ("backup", c5_rem_good)]

def c5_up : UpstreamData := ⟨.ok (.valid "origin/main"), .ok 10⟩

def c5_branch : BranchData := ⟨.ok (.valid "main"), .ok c5_up, .ok 5⟩

def c5_repo : RepoData :=
  ⟨.ok [(some "origin", "origin"), (some "backup", "backup")],
   fun _ => .ok c5_rem_bad, .ok [.ok c5_branch],
   fun s => if s == "refs/remotes/origin/main" then .ok (some "origin")
            else .error "not found",
   fun _ => []⟩

theorem c5_fetch_failure_handling_witness :
    Diag.remote_fetch_failed "/repos/r" "origin" "auth failed" ∈
      (fetch_remotes false "/repos/r" c5_qualifying).1
    ∧ ("backup", c5_rem_good) ∈ (fetch_remotes false "/repos/r" c5_qualifying).2
    ∧ "origin" ∉ ((fetch_remotes false "/repos/r" c5_qualifying).2).map Prod.fst
    ∧ (audit_branch false "/repos/r" c5_repo
         (fetch_remotes false "/repos/r" c5_qualifying).2 c5_branch).status =
        some (some "main", SyncStatus.UpstreamRemoteNotSynced)
    ∧ (audit_branch false "/repos/r" c5_repo
         (fetch_remotes false "/repos/r" c5_qualifying).2 c5_branch).walks = [] := by
  have h := c5_fetch_failure_handling false "/repos/r" c5_qualifying "origin"
    c5_rem_bad "auth failed" (by decide) rfl (by decide)
  have h4 := h.2.2.2 c5_repo c5_branch (.valid "main") c5_up "origin/main"
    rfl rfl rfl (by decide)
  exact ⟨h.1, h.2.1 "backup" c5_rem_good (by decide) rfl, h.2.2.1,
    h4.1.trans (by decide), h4.2⟩

/-! ## C10: revwalk errors mid-iteration -/

def c10_up : UpstreamData := ⟨.ok (.valid "origin/main"), .ok 10⟩

def c10_branch : BranchData := ⟨.ok (.valid "main"), .ok c10_up, .ok 5⟩

def c10_remote : RemoteInfo :=
  ⟨some "https://github.com/o/r.git", "https://github.com/o/r.git", .ok ()⟩

def c10_repo : RepoData :=
  ⟨.ok [(some "origin", "origin")], fun _ => .ok c10_remote, .ok [.ok c10_branch],
   fun s => if s == "refs/remotes/origin/main" then .ok (some "origin")
            else .error "not found",
   fun t => if t == 10 then [.error "corrupt object", .ok 7]
            else if t == 5 then [.ok 5, .ok 10] else []⟩

/-- C10: an `Err` item yielded mid-walk is logged as a branch-level
diagnostic and treated as the sought commit not being found at that
position, the walk continuing; classification still proceeds, as on a
concrete repository whose upstream-seeded walk yields an error item: the
branch is still classified (here AheadOfUpstream) and the entry is not
abandoned. -/
theorem c10_walk_error_recovery :
    (∀ (path branch : String) (target : Oid) (e : ErrMsg)
       (rest : List (Except ErrMsg Oid)),
       walk_any path branch target (.error e :: rest) =
         (Diag.general_branch_error path branch e ::
            (walk_any path branch target rest).1,
          (walk_any path branch target rest).2))
    ∧ audit_branch false "/repos/r" c10_repo [("origin", c10_remote)] c10_branch =
        ⟨[Diag.general_branch_error "/repos/r" "main" "corrupt object",
          Diag.ahead_of_upstream "/repos/r" "main"],
         some (some "main", SyncStatus.AheadOfUpstream), [10, 5]⟩ :=
  ⟨fun _ _ _ _ _ => rfl, by decide⟩
